import Mathlib

/-!
Verification of the executive-assistant mail system.

This file gives a shallow embedding, in Lean, of the pure decision logic of
the repository (credential vault bookkeeping, account manager flows, spam
classifier parsing, priority learning and scoring, IMAP bulk operations,
Gmail label handling, and the OAuth2 authorization poll loop), and proves or
refutes the specified properties against that embedding.

Conventions:
- Python dicts with string keys/values are association lists (`Dict`), with
  first-occurrence lookup and in-place overwrite on insert, matching dict
  semantics for the operations used by the code.
- Python float scores are modelled as rationals; every constant appearing in
  the code (0.8, 0.9, 5.0, ...) is an exact decimal, so no rounding concerns
  arise for the properties proved here.
- External effects (keyring, IMAP/REST transports, the LLM) are oracles
  passed as parameters; an operation that can raise is an `Option`/sum-typed
  outcome parameter.
-/

namespace ExecAssist

/-!
String primitives. The Lean core versions (`String.splitOn`,
`String.toLower`, ...) are compiled but not kernel-reducible, so the Python
string operations the code uses are re-implemented here structurally over
`String.data`; all source inputs of interest are ASCII, where these agree
with the Python semantics. -/

/-- Python whitespace test (`str.split()` / `str.strip()` separator set). -/
def pyIsSpace (c : Char) : Bool :=
  c == ' ' || c == '\t' || c == '\n' || c == '\r'

/-- ASCII lowercase of one character. -/
def pyCharLower (c : Char) : Char :=
  if 65 ≤ c.toNat ∧ c.toNat ≤ 90 then Char.ofNat (c.toNat + 32) else c

/-- ASCII uppercase of one character. -/
def pyCharUpper (c : Char) : Char :=
  if 97 ≤ c.toNat ∧ c.toNat ≤ 122 then Char.ofNat (c.toNat - 32) else c

/-- Python `s.lower()` (ASCII). -/
def pyLower (s : String) : String := ⟨s.data.map pyCharLower⟩

/-- Python `s.upper()` (ASCII). -/
def pyUpper (s : String) : String := ⟨s.data.map pyCharUpper⟩

/-- Does the second list start with the first? -/
def listStarts : List Char → List Char → Bool
  | [], _ => true
  | _ :: _, [] => false
  | p :: ps, c :: cs => p == c && listStarts ps cs

/-- Python `s.startswith(pat)`. -/
def strStarts (s pat : String) : Bool := listStarts pat.data s.data

/-- Does the pattern occur anywhere in the list? -/
def listHasInfix (pat : List Char) : List Char → Bool
  | [] => pat.isEmpty
  | c :: cs => listStarts pat (c :: cs) || listHasInfix pat cs

/-- Python substring test `pat in s`. -/
def containsStr (s pat : String) : Bool := listHasInfix pat.data s.data

/-- Worker for splitting on a non-empty literal separator: structural on a
fuel argument (chosen large enough that exhaustion is unreachable, since
each step consumes at least one character). -/
def splitOnFuel (pat : List Char) :
    ℕ → List Char → List Char → List (List Char)
  | 0, acc, l => [acc.reverse ++ l]
  | _ + 1, acc, [] => [acc.reverse]
  | fuel + 1, acc, c :: rest =>
      if listStarts pat (c :: rest) then
        acc.reverse :: splitOnFuel pat fuel [] ((c :: rest).drop pat.length)
      else splitOnFuel pat fuel (c :: acc) rest

/-- Python `s.split(pat)` for a non-empty literal separator. -/
def pySplitOn (s pat : String) : List String :=
  match pat.data with
  | [] => [s]
  | p :: ps =>
      (splitOnFuel (p :: ps) (s.data.length + 1) [] s.data).map
        (fun l => ⟨l⟩)

/-- Worker for `afterFirst`: the remainder after the first occurrence. -/
def afterFirstGo (p : Char) (ps : List Char) :
    List Char → Option (List Char)
  | [] => none
  | c :: rest =>
      if listStarts (p :: ps) (c :: rest) then
        some ((c :: rest).drop (p :: ps).length)
      else afterFirstGo p ps rest

/-- Python `s.split(pat, 1)[1]`: everything after the first occurrence of
`pat` in `s` (empty when `pat` does not occur, a case the code guards). -/
def afterFirst (s pat : String) : String :=
  match pat.data with
  | [] => s
  | p :: ps =>
      match afterFirstGo p ps s.data with
      | some l => ⟨l⟩
      | none => ""

/-- Python `s.strip()`. -/
def pyStrip (s : String) : String :=
  ⟨((s.data.dropWhile pyIsSpace).reverse.dropWhile pyIsSpace).reverse⟩

/-- Python `s[:n]`. -/
def pyTake (s : String) (n : ℕ) : String := ⟨s.data.take n⟩

/-- Worker for Python `s.split()`: whitespace-separated words. -/
def wordsGo : List Char → List Char → List String
  | acc, [] => if acc.isEmpty then [] else [⟨acc.reverse⟩]
  | acc, c :: rest =>
      if pyIsSpace c then
        if acc.isEmpty then wordsGo [] rest
        else (⟨acc.reverse⟩ : String) :: wordsGo [] rest
      else wordsGo (c :: acc) rest

/-- Python `s.split()`: split on whitespace runs, dropping empty pieces. -/
def pySplit (s : String) : List String := wordsGo [] s.data

/-- String-keyed association list standing in for a Python dict. -/
abbrev Dict := List (String × String)

/-- First-occurrence key lookup in an association list (`d.get(k)` /
`d[k]` on a Python dict, whose keys are unique). -/
def dlookup (k : String) : List (String × α) → Option α
  | [] => none
  | kv :: rest => if kv.1 = k then some kv.2 else dlookup k rest

/-- Dict update `d[k] = v`: overwrite in place when the key is present,
append otherwise (Python dict-merge semantics for one key). -/
def dictInsert (d : Dict) (k v : String) : Dict :=
  if (dlookup k d).isSome then
    d.map (fun kv => if kv.1 = k then (k, v) else kv)
  else d ++ [(k, v)]

/-- Remove a key from an association list (Python `del d[k]`). -/
def eraseKey (k : String) (d : List (String × α)) : List (String × α) :=
  d.filter (fun kv => kv.1 ≠ k)

theorem eraseKey_cons (k : String) (kv : String × α) (d : List (String × α)) :
    eraseKey k (kv :: d) =
      if kv.1 = k then eraseKey k d else kv :: eraseKey k d := by
  by_cases h : kv.1 = k <;> simp [eraseKey, List.filter_cons, h]

theorem dlookup_eraseKey_self (k : String) (d : List (String × α)) :
    dlookup k (eraseKey k d) = none := by
  induction d with
  | nil => rfl
  | cons kv rest ih =>
      rw [eraseKey_cons]
      by_cases h : kv.1 = k
      · simpa [h] using ih
      · simpa [dlookup, h] using ih

theorem dlookup_cons (k : String) (kv : String × α) (d : List (String × α)) :
    dlookup k (kv :: d) = if kv.1 = k then some kv.2 else dlookup k d := rfl

theorem dlookup_eraseKey_ne (k k' : String) (d : List (String × α))
    (h : k' ≠ k) : dlookup k' (eraseKey k d) = dlookup k' d := by
  induction d with
  | nil => rfl
  | cons kv rest ih =>
      rw [eraseKey_cons, dlookup_cons]
      by_cases hk : kv.1 = k
      · rw [if_pos hk, ih, if_neg (by rw [hk]; exact Ne.symm h)]
      · rw [if_neg hk, dlookup_cons, ih]

theorem dlookup_append (k : String) (d d' : List (String × α)) :
    dlookup k (d ++ d') =
      match dlookup k d with
      | some v => some v
      | none => dlookup k d' := by
  induction d with
  | nil => rfl
  | cons kv rest ih => by_cases h : kv.1 = k <;> simp [dlookup, h, ih]

theorem dlookup_map_overwrite_isSome (k v k' : String) (d : Dict)
    (h : (dlookup k' d).isSome) :
    (dlookup k' (d.map (fun kv => if kv.1 = k then (k, v) else kv))).isSome := by
  induction d with
  | nil => simp [dlookup] at h
  | cons kv rest ih =>
      rw [List.map_cons]
      by_cases hkk : kv.1 = k
      · rw [if_pos hkk, dlookup_cons]
        by_cases hke : k = k'
        · rw [if_pos hke]; simp
        · rw [if_neg hke]
          have hfst : kv.1 ≠ k' := by rw [hkk]; exact hke
          exact ih (by simpa [dlookup_cons, hfst] using h)
      · rw [if_neg hkk, dlookup_cons]
        by_cases hfst : kv.1 = k'
        · rw [if_pos hfst]; simp
        · rw [if_neg hfst]
          exact ih (by simpa [dlookup_cons, hfst] using h)

theorem dlookup_map_overwrite_self (k v : String) (d : Dict)
    (h : (dlookup k d).isSome) :
    dlookup k (d.map (fun kv => if kv.1 = k then (k, v) else kv)) = some v := by
  induction d with
  | nil => simp [dlookup] at h
  | cons kv rest ih =>
      rw [List.map_cons]
      by_cases hfst : kv.1 = k
      · rw [if_pos hfst, dlookup_cons, if_pos rfl]
      · rw [if_neg hfst, dlookup_cons, if_neg hfst]
        exact ih (by simpa [dlookup_cons, hfst] using h)

theorem dictInsert_dlookup_isSome (d : Dict) (k v k' : String)
    (h : (dlookup k' d).isSome) :
    (dlookup k' (dictInsert d k v)).isSome := by
  unfold dictInsert
  cases hd : dlookup k d with
  | some w =>
      simp only [hd, Option.isSome_some, if_true]
      exact dlookup_map_overwrite_isSome k v k' d h
  | none =>
      simp only [hd, Option.isSome_none, Bool.false_eq_true, if_false]
      rw [dlookup_append]
      cases hd' : dlookup k' d with
      | none => rw [hd'] at h; simp at h
      | some w => simp

theorem dictInsert_dlookup_self (d : Dict) (k v : String) :
    dlookup k (dictInsert d k v) = some v := by
  unfold dictInsert
  cases hd : dlookup k d with
  | some w =>
      simp only [hd, Option.isSome_some, if_true]
      exact dlookup_map_overwrite_self k v d (by simp [hd])
  | none =>
      simp only [hd, Option.isSome_none, Bool.false_eq_true, if_false]
      rw [dlookup_append, hd]
      simp [dlookup]

/-! ## CredentialVault (src/server/security/credential_vault.py)

Account metadata and the keyring are the two stores owned by the vault.
Keyring entries are addressed by the key `account_id ++ "_" ++ cred_type`,
exactly as `keychain_key = f"(account_id)_(credential_type)"` builds it.
`keyring.delete_password` can raise; which keys fail to delete is an oracle
`deleteFails` (the code logs and skips such failures). -/

/-- Per-account metadata record kept in `accounts_metadata` (secrets are
never stored here, only the list of stored credential kinds). -/
structure AccountMeta where
  provider : String
  email : String
  credentialTypes : List String
  additionalData : Option Dict := none
  tokenExpiry : Option String := none
  deriving Repr, DecidableEq

/-- Vault state: the metadata map and the keyring contents. -/
structure VaultState where
  metadata : List (String × AccountMeta)
  keyring : List (String × String)
  deriving Repr, DecidableEq

/-- `keychain_key = f"(account_id)_(credential_type)"`. -/
def keychainKey (accountId credType : String) : String :=
  accountId ++ "_" ++ credType

/-- `CredentialVault.get_credentials`: straight keyring lookup; a missing
value is `none` (the code returns `None`, it never raises). -/
def get_credentials (s : VaultState) (accountId credType : String) :
    Option String :=
  dlookup (keychainKey accountId credType) s.keyring

/-- The metadata upsert inside `store_credentials`: reuse the existing
record (appending the credential type when new) or initialize a fresh one. -/
def storedMeta (s : VaultState)
    (accountId provider email credType : String) : AccountMeta :=
  match dlookup accountId s.metadata with
  | some m =>
      if credType ∈ m.credentialTypes then m
      else { m with credentialTypes := m.credentialTypes ++ [credType] }
  | none =>
      { provider := provider, email := email,
        credentialTypes := [credType] }

/-- `CredentialVault.store_credentials` (success path): put the secret in
the keyring, then upsert metadata, appending the credential type if new. -/
def store_credentials (s : VaultState) (accountId provider email
    credType credValue : String) (additionalData : Option Dict := none) :
    VaultState :=
  let meta := storedMeta s accountId provider email credType
  let meta :=
    match additionalData with
    | some d => { meta with additionalData := some d }
    | none => meta
  { metadata := (accountId, meta) :: eraseKey accountId s.metadata,
    keyring :=
      (keychainKey accountId credType, credValue) ::
        eraseKey (keychainKey accountId credType) s.keyring }

/-- One step of the deletion loop in `delete_credentials`: attempt to delete
the keyring entry for one credential type; a raising delete is skipped. -/
def deleteOneKind (deleteFails : String → Bool) (accountId : String)
    (keyring : List (String × String)) (credType : String) :
    List (String × String) :=
  let key := keychainKey accountId credType
  if deleteFails key then keyring else eraseKey key keyring

/-- `CredentialVault.delete_credentials`: missing account returns false and
changes nothing; otherwise every listed credential kind is deleted
best-effort (failures logged and skipped), then the metadata entry is
removed unconditionally and the call returns true. -/
def delete_credentials (deleteFails : String → Bool) (s : VaultState)
    (accountId : String) : Bool × VaultState :=
  match dlookup accountId s.metadata with
  | none => (false, s)
  | some meta =>
      let keyring :=
        meta.credentialTypes.foldl (deleteOneKind deleteFails accountId)
          s.keyring
      (true, { metadata := eraseKey accountId s.metadata,
               keyring := keyring })

/-- `CredentialVault.list_accounts`: the metadata map itself. -/
def list_accounts (s : VaultState) : List (String × AccountMeta) :=
  s.metadata

/-- `AccountManager.remove_account`: evict any cached connector, then
delegate to the vault; status is "success" exactly when the vault delete
returned true. -/
def remove_account (deleteFails : String → Bool)
    (cache : List String) (s : VaultState) (accountId : String) :
    String × List String × VaultState :=
  let cache := cache.filter (fun a => a ≠ accountId)
  let (ok, s') := delete_credentials deleteFails s accountId
  (if ok then "success" else "error", cache, s')

/-! ### C1: account removal and credential reachability -/

theorem dlookup_eraseKey_none (key key' : String) (kr : List (String × α))
    (h : dlookup key kr = none) : dlookup key (eraseKey key' kr) = none := by
  by_cases he : key = key'
  · rw [he]; exact dlookup_eraseKey_self key' kr
  · rw [dlookup_eraseKey_ne key' key kr he]; exact h

theorem deleteOneKind_none (df : String → Bool) (a key : String)
    (kr : List (String × String)) (ct : String)
    (h : dlookup key kr = none) :
    dlookup key (deleteOneKind df a kr ct) = none := by
  unfold deleteOneKind
  by_cases hdf : df (keychainKey a ct)
  · simpa [hdf] using h
  · simp only [Bool.not_eq_true] at hdf
    simp only [hdf, Bool.false_eq_true, if_false]
    exact dlookup_eraseKey_none key (keychainKey a ct) kr h

theorem foldl_deleteOneKind_none (df : String → Bool) (a key : String)
    (cts : List String) : ∀ kr, dlookup key kr = none →
    dlookup key (cts.foldl (deleteOneKind df a) kr) = none := by
  induction cts with
  | nil => intro kr h; simpa using h
  | cons ct rest ih =>
      intro kr h
      exact ih _ (deleteOneKind_none df a key kr ct h)

theorem foldl_deleteOneKind_erased (df : String → Bool) (a : String)
    (cts : List String) : ∀ kr (ct : String), ct ∈ cts →
    df (keychainKey a ct) = false →
    dlookup (keychainKey a ct) (cts.foldl (deleteOneKind df a) kr) = none := by
  induction cts with
  | nil => intro kr ct h; simp at h
  | cons c rest ih =>
      intro kr ct hmem hdf
      rcases List.mem_cons.mp hmem with hc | hc
      · subst hc
        have h1 : dlookup (keychainKey a ct) (deleteOneKind df a kr ct)
            = none := by
          unfold deleteOneKind
          simp only [hdf, Bool.false_eq_true, if_false]
          exact dlookup_eraseKey_self _ kr
        simpa [List.foldl_cons] using
          foldl_deleteOneKind_none df a _ rest _ h1
      · simpa [List.foldl_cons] using ih (deleteOneKind df a kr c) ct hc hdf

/-- Concrete vault state for refuting C1 as stated: one account holding one
credential kind whose keyring deletion raises (is skipped). -/
def c1State : VaultState :=
  { metadata := [("acct1",
      { provider := "yahoo", email := "user@yahoo.com",
        credentialTypes := ["app_password"] })],
    keyring := [("acct1_app_password", "secret-value")] }

/-- Which keyring deletes fail in the C1 counterexample scenario. -/
def c1Fails : String → Bool := fun k => k == "acct1_app_password"

/-- C1 counterexample: `delete_credentials` returns true and the account is
gone from `list_accounts`, yet `get_credentials` still returns the stored
secret for a listed credential kind whose per-kind deletion failed - so the
claim that every previously listed kind is absent after a true return is
false on the code (deletion failures are logged and skipped while metadata
removal proceeds). -/
theorem credentialVault_delete_counterexample :
    (delete_credentials c1Fails c1State "acct1").1 = true ∧
    dlookup "acct1"
      (list_accounts (delete_credentials c1Fails c1State "acct1").2) = none ∧
    get_credentials (delete_credentials c1Fails c1State "acct1").2
      "acct1" "app_password" = some "secret-value" := by
  refine ⟨rfl, rfl, rfl⟩

/-- C1 (amended): after `CredentialVault.delete_credentials` returns true,
`list_accounts` no longer contains the account metadata and
`AccountManager.remove_account` reports success; every credential kind
listed for the account whose individual keyring deletion did not fail is
unreachable via `get_credentials` (kinds whose deletion failed are skipped
best-effort and may remain readable); metadata removal proceeds even when an
individual per-kind secret deletion fails. -/
theorem credentialVault_delete_amended
    (deleteFails : String → Bool) (s : VaultState)
    (cache : List String) (accountId : String) (meta : AccountMeta)
    (hmeta : dlookup accountId s.metadata = some meta) :
    (delete_credentials deleteFails s accountId).1 = true ∧
    dlookup accountId
      (list_accounts (delete_credentials deleteFails s accountId).2)
        = none ∧
    (∀ ct ∈ meta.credentialTypes,
      deleteFails (keychainKey accountId ct) = false →
      get_credentials (delete_credentials deleteFails s accountId).2
        accountId ct = none) ∧
    (remove_account deleteFails cache s accountId).1 = "success" := by
  have hdel : delete_credentials deleteFails s accountId =
      (true, { metadata := eraseKey accountId s.metadata,
               keyring := meta.credentialTypes.foldl
                 (deleteOneKind deleteFails accountId) s.keyring }) := by
    unfold delete_credentials
    rw [hmeta]
  refine ⟨by rw [hdel], ?_, ?_, ?_⟩
  · rw [hdel]
    exact dlookup_eraseKey_self accountId s.metadata
  · intro ct hmem hdf
    rw [hdel]
    exact foldl_deleteOneKind_erased deleteFails accountId
      meta.credentialTypes s.keyring ct hmem hdf
  · unfold remove_account
    rw [hdel]
    rfl

/-- Metadata record used by the C1 witness state. -/
def w1Meta : AccountMeta :=
  { provider := "yahoo", email := "user@example.com",
    credentialTypes := ["app_password"] }

/-- C1 witness state: one account, one stored kind, no deletion failures. -/
def w1State : VaultState :=
  { metadata := [("a", w1Meta)],
    keyring := [("a_app_password", "pw")] }

/-- C1 witness: the amended theorem applied at a concrete vault state. -/
theorem credentialVault_delete_amended_witness :
    dlookup "a" w1State.metadata = some w1Meta ∧
    get_credentials (delete_credentials (fun _ => false) w1State "a").2
      "a" "app_password" = none ∧
    (remove_account (fun _ => false) [] w1State "a").1 = "success" := by
  have h := credentialVault_delete_amended (fun _ => false) w1State []
    "a" w1Meta rfl
  exact ⟨rfl, h.2.2.1 "app_password" (by simp [w1Meta]) rfl, h.2.2.2⟩

/-! ## AccountManager.add_account_password (C7)

The verification step calls the freshly built connector: `connect()` either
returns a `(success, message)` pair - all shipped IMAP connectors catch
their own errors and return this shape - or the step raises, in which case
the outer handler of `add_account_password` catches and returns an error
dict. Both behaviors are a `ConnectBehavior` parameter here. -/

/-- Behavior of the `connector.connect()` verification step. -/
inductive ConnectBehavior where
  | ret (success : Bool) (message : String)
  | raises (message : String)
  deriving Repr, DecidableEq

/-- Shape of the result dict returned by the account-addition entry point. -/
structure AddResult where
  status : String
  error : Option String
  deriving Repr, DecidableEq

/-- `AccountManager.add_account_password`: reject unknown providers, store
the app password, then verify by connect-then-disconnect. A returned
failure rolls the stored credential back via `delete_credentials`; a raised
exception is caught by the outer handler, which returns an error WITHOUT
rolling back. -/
def add_account_password (deleteFails : String → Bool) (s : VaultState)
    (accountId provider email appPassword : String)
    (connect : ConnectBehavior) : AddResult × VaultState :=
  if provider ∉ ["yahoo", "comcast", "apple"] then
    ({ status := "error",
       error := some ("Password auth not supported for " ++ provider) }, s)
  else
    let s1 := store_credentials s accountId provider email
      "app_password" appPassword
    match connect with
    | .ret true _ => ({ status := "success", error := none }, s1)
    | .ret false msg =>
        let s2 := (delete_credentials deleteFails s1 accountId).2
        ({ status := "error",
           error := some ("Connection test failed: " ++ msg) }, s2)
    | .raises msg =>
        ({ status := "error", error := some msg }, s1)

/-! ### C7: rollback of unverified app passwords -/

theorem storedMeta_mem (s : VaultState)
    (accountId provider email credType : String) :
    credType ∈ (storedMeta s accountId provider email credType).credentialTypes := by
  unfold storedMeta
  cases hd : dlookup accountId s.metadata with
  | none => simp
  | some m =>
      by_cases hmem : credType ∈ m.credentialTypes
      · simp [hmem]
      · simp [hmem]

theorem store_credentials_meta (s : VaultState)
    (accountId provider email credType credValue : String) :
    dlookup accountId
      (store_credentials s accountId provider email credType
        credValue).metadata
      = some (storedMeta s accountId provider email credType) := by
  unfold store_credentials
  rw [dlookup_cons, if_pos rfl]

/-- C7 counterexample: with an empty vault, adding a yahoo account whose
verification step raises returns an error result, yet the just-stored app
password is still retrievable from the vault - the code only rolls back
when `connect()` RETURNS failure, not when the verification raises, so the
claim "whenever that verification fails (including by exception) the
credential is rolled back" is false on the code. -/
theorem addAccountPassword_rollback_counterexample :
    (add_account_password (fun _ => false)
      { metadata := [], keyring := [] } "a1" "yahoo" "u@yahoo.com" "pw"
      (.raises "boom")).1.status = "error" ∧
    get_credentials (add_account_password (fun _ => false)
      { metadata := [], keyring := [] } "a1" "yahoo" "u@yahoo.com" "pw"
      (.raises "boom")).2 "a1" "app_password" = some "pw" := by
  exact ⟨rfl, rfl⟩

/-- C7 (amended): `add_account_password` verifies by a live
connect-then-disconnect after storing the credential, and whenever the
verification RETURNS failure the just-stored credential is rolled back
(deleted from the vault, assuming the keyring deletion itself does not
fail), so the vault does not retain the unverified app password; when the
verification step instead raises an exception, the error is returned but
the stored credential is NOT rolled back. -/
theorem addAccountPassword_rollback_amended
    (deleteFails : String → Bool) (s : VaultState)
    (accountId provider email appPassword msg : String)
    (hprov : provider ∈ ["yahoo", "comcast", "apple"])
    (hdf : deleteFails (keychainKey accountId "app_password") = false) :
    (add_account_password deleteFails s accountId provider email
      appPassword (.ret false msg)).1.status = "error" ∧
    get_credentials (add_account_password deleteFails s accountId provider
      email appPassword (.ret false msg)).2 accountId "app_password"
      = none ∧
    get_credentials (add_account_password deleteFails s accountId provider
      email appPassword (.raises msg)).2 accountId "app_password"
      = some appPassword := by
  have hcond : ¬ provider ∉ ["yahoo", "comcast", "apple"] :=
    not_not_intro hprov
  unfold add_account_password
  simp only [if_neg hcond]
  refine ⟨trivial, ?_, ?_⟩
  · show get_credentials
      (delete_credentials deleteFails
        (store_credentials s accountId provider email "app_password"
          appPassword) accountId).2 accountId "app_password" = none
    unfold delete_credentials
    rw [store_credentials_meta]
    exact foldl_deleteOneKind_erased deleteFails accountId
      (storedMeta s accountId provider email "app_password").credentialTypes
      _ "app_password"
      (storedMeta_mem s accountId provider email "app_password") hdf
  · show get_credentials
      (store_credentials s accountId provider email "app_password"
        appPassword) accountId "app_password" = some appPassword
    unfold get_credentials store_credentials
    rw [dlookup_cons, if_pos rfl]

/-- C7 witness: the amended theorem applied at a concrete empty vault. -/
theorem addAccountPassword_rollback_amended_witness :
    ("yahoo" ∈ ["yahoo", "comcast", "apple"]) ∧
    get_credentials (add_account_password (fun _ => false)
      { metadata := [], keyring := [] } "a1" "yahoo" "u@yahoo.com" "pw"
      (.ret false "bad login")).2 "a1" "app_password" = none := by
  have h := addAccountPassword_rollback_amended (fun _ => false)
    { metadata := [], keyring := [] } "a1" "yahoo" "u@yahoo.com" "pw"
    "bad login" (by simp) rfl
  exact ⟨by simp, h.2.1⟩

/-! ## PriorityEngine (src/server/intelligence/priority_engine.py)

Scores are rationals; the pattern state mirrors the persisted JSON maps
(`senders`, `domains`, `keywords`, `response_times`). -/

/-- One learned pattern entry: a running score plus a sample count. -/
structure PatternEntry where
  score : ℚ
  count : ℕ
  deriving Repr, DecidableEq

/-- The learned pattern state persisted by the engine. -/
structure PriorityPatterns where
  senders : List (String × PatternEntry)
  domains : List (String × PatternEntry)
  keywords : List (String × PatternEntry)
  responseTimes : List (String × List ℚ)
  deriving Repr, DecidableEq

/-- Python `email.get(key, "")` on an email dict. -/
def emailGet (e : Dict) (k : String) : String := (dlookup k e).getD ""

/-- Python `sender.split("@")[-1] if "@" in sender else ""`. -/
def senderDomain (sender : String) : String :=
  if containsStr sender "@" then ((pySplitOn sender "@").getLast?).getD ""
  else ""

/-- Python `l[-n:]`: the last n elements for n > 0; the whole list for
n = 0 (since `l[-0:]` is `l[0:]`). -/
def pyTakeLast (n : ℕ) (l : List α) : List α :=
  if n = 0 then l else l.drop (l.length - n)

/-- The `action_scores` table of `learn_from_action`. -/
def action_scores : List (String × ℚ) :=
  [("opened_immediately", 3), ("starred", 5/2), ("replied_fast", 3),
   ("opened_within_hour", 3/2), ("opened_within_day", 1/2),
   ("ignored_week", -1), ("deleted_immediately", -2)]

/-- Sender-level score update of `learn_from_action`:
`current["score"] = (current["score"] * 0.8) + (score_delta * 0.2)`. -/
def senderScoreStep (score delta : ℚ) : ℚ :=
  score * (8/10) + delta * (2/10)

/-- Domain-level score update of `learn_from_action`:
`current["score"] = (current["score"] * 0.9) + (score_delta * 0.1)`. -/
def domainScoreStep (score delta : ℚ) : ℚ :=
  score * (9/10) + delta * (1/10)

/-- Keyword-level score update of `learn_from_action`:
`current["score"] = (current["score"] * 0.9) + (score_delta * 0.1)`. -/
def keywordScoreStep (score delta : ℚ) : ℚ :=
  score * (9/10) + delta * (1/10)

/-- Fetch-or-default, bump the count, apply the level's score step, and put
the entry back (default entry is score 5.0, count 0). -/
def updateEntry (step : ℚ → ℚ → ℚ) (delta : ℚ)
    (entries : List (String × PatternEntry)) (key : String) :
    List (String × PatternEntry) :=
  let current := (dlookup key entries).getD { score := 5, count := 0 }
  (key, { score := step current.score delta, count := current.count + 1 })
    :: eraseKey key entries

/-- `PriorityEngine.learn_from_action`: update sender, domain and (up to 5)
keyword entries from the action's score delta, and record response times
for fast reactions (truthy `time_to_action` only, keeping the last 10). -/
def learn_from_action (p : PriorityPatterns) (e : Dict) (action : String)
    (timeToAction : Option ℚ := none) : PriorityPatterns :=
  let sender := pyLower (emailGet e "from")
  let subject := pyLower (emailGet e "subject")
  let domain := senderDomain sender
  let scoreDelta := (dlookup action action_scores).getD 0
  let senders :=
    if sender ≠ "" then updateEntry senderScoreStep scoreDelta p.senders sender
    else p.senders
  let domains :=
    if domain ≠ "" then updateEntry domainScoreStep scoreDelta p.domains domain
    else p.domains
  let kws := ((pySplit subject).filter (fun w => 4 < w.length)).take 5
  let keywords := kws.foldl (updateEntry keywordScoreStep scoreDelta) p.keywords
  let responseTimes :=
    match timeToAction with
    | some t =>
        if t ≠ 0 ∧ (action = "replied_fast" ∨ action = "opened_immediately")
        then
          let times := (dlookup sender p.responseTimes).getD []
          (sender, pyTakeLast 10 (times ++ [t]))
            :: eraseKey sender p.responseTimes
        else p.responseTimes
    | none => p.responseTimes
  { senders := senders, domains := domains, keywords := keywords,
    responseTimes := responseTimes }

/-- Hard-coded urgency cue list of `calculate_priority`. -/
def urgent_keywords : List String :=
  ["urgent", "asap", "immediate", "important", "critical"]

/-- `PriorityEngine.calculate_priority`: neutral base 5.0 plus weighted
sender/domain/keyword history contributions and fixed urgency boosts,
clamped to [0, 10] by `max(0.0, min(10.0, score))`. -/
def calculate_priority (p : PriorityPatterns) (e : Dict) : ℚ :=
  let sender := pyLower (emailGet e "from")
  let subject := pyLower (emailGet e "subject")
  let domain := senderDomain sender
  let score : ℚ := 5
  let score := score +
    (match dlookup sender p.senders with
     | some d => (d.score - 5) * (4/10)
     | none => 0)
  let score := score +
    (match dlookup domain p.domains with
     | some d => (d.score - 5) * (2/10)
     | none => 0)
  let kws := (pySplit subject).filter (fun w => 4 < w.length)
  let keywordBoost := kws.foldl (fun acc w =>
    match dlookup w p.keywords with
    | some d => acc + (d.score - 5) * (1/10)
    | none => acc) 0
  let score := score + keywordBoost
  let score :=
    if urgent_keywords.any (fun kw => containsStr subject kw) then score + 2
    else score
  let score :=
    if containsStr subject "invite" || containsStr subject "meeting" ||
       containsStr subject "calendar" then score + (3/2)
    else score
  let score := if strStarts subject "re:" then score + 1 else score
  max 0 (min 10 score)

/-! ## EmailManager._calculate_priority_score
(src/server/managers/email_manager.py) -/

/-- Sender-history record of EmailManager (category, confidence, count and
the optional truthy `priority_boost` flag). -/
structure SenderHistoryEntry where
  category : String
  confidence : ℚ
  count : ℕ
  priorityBoost : Bool := false
  deriving Repr, DecidableEq

/-- Urgency cue list of `_calculate_priority_score`. -/
def em_urgent_keywords : List String :=
  ["urgent", "asap", "important", "action required", "immediate"]

/-- `EmailManager._calculate_priority_score`: base 5.0, +3 for a
priority-boosted sender, +2 for urgency keywords, +1.5 for invite/meeting,
+1 for a reply, capped above by `min(10.0, score)`. -/
def emailManagerPriorityScore
    (senderHistory : List (String × SenderHistoryEntry)) (e : Dict) : ℚ :=
  let sender := pyLower (emailGet e "from")
  let subject := pyLower (emailGet e "subject")
  let score : ℚ := 5
  let score :=
    match dlookup sender senderHistory with
    | some h => if h.priorityBoost then score + 3 else score
    | none => score
  let score :=
    if em_urgent_keywords.any (fun kw => containsStr subject kw) then
      score + 2
    else score
  let score :=
    if containsStr subject "invite" || containsStr subject "meeting" then
      score + (3/2)
    else score
  let score := if strStarts subject "re:" then score + 1 else score
  min 10 score

/-! ### C3: priority scores lie in [0, 10] -/

/-- C3: for every email dict and every learned-pattern / sender-history
state of arbitrary magnitude, both `PriorityEngine.calculate_priority` and
`EmailManager._calculate_priority_score` return a score in [0, 10]. -/
theorem priority_score_bounds (p : PriorityPatterns)
    (senderHistory : List (String × SenderHistoryEntry)) (e : Dict) :
    (0 ≤ calculate_priority p e ∧ calculate_priority p e ≤ 10) ∧
    (0 ≤ emailManagerPriorityScore senderHistory e ∧
      emailManagerPriorityScore senderHistory e ≤ 10) := by
  refine ⟨⟨?_, ?_⟩, ?_, ?_⟩
  · exact le_max_left 0 _
  · exact max_le (by norm_num) (min_le_left 10 _)
  · unfold emailManagerPriorityScore
    apply le_min (by norm_num)
    cases hd : dlookup (pyLower (emailGet e "from")) senderHistory with
    | none => split_ifs <;> norm_num
    | some h =>
        cases hb : h.priorityBoost <;> simp only [hb] <;>
          split_ifs <;> norm_num
  · exact min_le_left 10 _

/-! ### C9: the learning decay rule -/

/-- Pattern state for refuting the C9 decay comparison: known sender and
domain, both with current score 1. -/
def c9Patterns : PriorityPatterns :=
  { senders := [("alice@example.com", { score := 1, count := 0 })],
    domains := [("example.com", { score := 1, count := 0 })],
    keywords := [], responseTimes := [] }

/-- Email used for the C9 counterexample. -/
def c9Email : Dict := [("from", "alice@example.com"), ("subject", "")]

/-- C9 counterexample: with an unrecognized action (delta 0) and current
scores 1, the updated sender score is 0.8 and the updated domain score is
0.9 - the update multiplies the score by exactly the decay factor - so the
sender-level decay (0.8) is LOWER than the domain-level decay (0.9),
refuting "decay weighted higher at the sender level than at the domain or
keyword level". -/
theorem priorityLearn_decay_counterexample :
    (dlookup "alice@example.com"
      (learn_from_action c9Patterns c9Email "no_such_action" none).senders).map
        PatternEntry.score = some (4/5 : ℚ) ∧
    (dlookup "example.com"
      (learn_from_action c9Patterns c9Email "no_such_action" none).domains).map
        PatternEntry.score = some (9/10 : ℚ) ∧
    ¬ ((9/10 : ℚ) < 4/5) := by
  refine ⟨?_, ?_, by norm_num⟩
  · have h : (dlookup "alice@example.com"
        (learn_from_action c9Patterns c9Email "no_such_action" none).senders).map
          PatternEntry.score = some (senderScoreStep 1 0) := rfl
    rw [h]
    norm_num [senderScoreStep]
  · have h : (dlookup "example.com"
        (learn_from_action c9Patterns c9Email "no_such_action" none).domains).map
          PatternEntry.score = some (domainScoreStep 1 0) := rfl
    rw [h]
    norm_num [domainScoreStep]

/-- C9 (amended): every learning update in `learn_from_action` follows
`score' = score * decay + delta * (1 - decay)` with senderDecay = 0.8 and
domainDecay = keywordDecay = 0.9; the decay is LOWER (the delta weight
1 - decay is higher) at the sender level than at the domain or keyword
level, so sender-level scores move faster - twice as fast - than domain-
and keyword-level scores for the same action delta. -/
theorem priorityLearn_decay_amended (score delta : ℚ) :
    senderScoreStep score delta = score * (4/5) + delta * (1 - 4/5) ∧
    domainScoreStep score delta = score * (9/10) + delta * (1 - 9/10) ∧
    keywordScoreStep score delta = score * (9/10) + delta * (1 - 9/10) ∧
    (4/5 : ℚ) < 9/10 ∧
    |senderScoreStep score delta - score| =
      2 * |domainScoreStep score delta - score| := by
  refine ⟨by unfold senderScoreStep; ring, by unfold domainScoreStep; ring,
    by unfold keywordScoreStep; ring, by norm_num, ?_⟩
  unfold senderScoreStep domainScoreStep
  have h1 : score * (8/10) + delta * (2/10) - score
      = (2/10) * (delta - score) := by ring
  have h2 : score * (9/10) + delta * (1/10) - score
      = (1/10) * (delta - score) := by ring
  rw [h1, h2, abs_mul, abs_mul,
    show |(2/10 : ℚ)| = 2/10 by norm_num,
    show |(1/10 : ℚ)| = 1/10 by norm_num]
  ring

/-! ## SpamDetector (src/server/spam_detector.py)

The LLM call is an oracle `llm : Dict → Except String String`; `.ok text`
is the response text extracted from the Ollama reply, `.error msg` stands
for `generate` (or the extraction) raising, which `categorize_email`
catches. -/

/-- The `CATEGORY:` line scan of `_parse_response`: find the first line
whose stripped form starts with `CATEGORY:`, split that line at its first
colon and map the stripped value; any other outcome keeps the default
"unsure" (the loop breaks after the first matching line). -/
def categoryFromLines : List String → String
  | [] => "unsure"
  | line :: rest =>
      if strStarts (pyStrip line) "CATEGORY:" then
        if containsStr (pyStrip (afterFirst line ":")) "SPAM" then "spam"
        else if containsStr (pyStrip (afterFirst line ":")) "KEEP" then
          "keep"
        else if containsStr (pyStrip (afterFirst line ":")) "UNSURE" then
          "unsure"
        else "unsure"
      else categoryFromLines rest

/-- The reasoning extraction of `_parse_response`: the first line after
`REASONING:`, stripped and truncated to 200 chars; empty when the token is
absent. -/
def rawReasoning (response : String) : String :=
  if containsStr response "REASONING:" then
    pyTake ((pySplitOn (pyStrip (afterFirst response "REASONING:"))
      "\n").headD "") 200
  else ""

/-- `SpamDetector._parse_response`: strip + uppercase the response; the
category comes from the `CATEGORY:` line (default "unsure" when the token
is absent or no line parses); the reasoning is `rawReasoning`, replaced by
the synthetic default "No reasoning provided" when empty. -/
def parse_response (resp : String) : String × String :=
  (if containsStr (pyUpper (pyStrip resp)) "CATEGORY:" then
     categoryFromLines (pySplitOn (pyUpper (pyStrip resp)) "\n")
   else "unsure",
   if rawReasoning (pyUpper (pyStrip resp)) = "" then
     "No reasoning provided"
   else rawReasoning (pyUpper (pyStrip resp)))

/-- `SpamDetector.categorize_email`: build the prompt, call the model,
parse; any raised error is caught and degrades to category "unsure" with
an `Error: ...` reasoning. The result merges the verdict into the input
email dict (`{**email, "category": ..., "reasoning": ...}`). -/
def categorize_email (llm : Dict → Except String String) (e : Dict) :
    Dict :=
  match llm e with
  | .ok responseText =>
      let pr := parse_response responseText
      dictInsert (dictInsert e "category" pr.1) "reasoning" pr.2
  | .error msg =>
      dictInsert (dictInsert e "category" "unsure") "reasoning"
        ("Error: " ++ msg)

/-- Python `emails[i:i+bs]` chunking of the batch loop
(`for i in range(0, total, batch_size)`). -/
def batchChunks (batchSize : ℕ) (l : List α) : List (List α) :=
  if batchSize = 0 then []
  else if l.isEmpty then []
  else l.take batchSize :: batchChunks batchSize (l.drop batchSize)
termination_by l.length
decreasing_by
  rename_i hbs hne
  have h1 : l.length ≠ 0 := by
    simpa [List.isEmpty_iff_length_eq_zero] using hne
  simp only [List.length_drop]
  omega

/-- `SpamDetector.batch_categorize`: process the emails in slice order,
appending one categorized result per email (progress logging elided). -/
def batch_categorize (llm : Dict → Except String String)
    (batchSize : ℕ) (emails : List Dict) : List Dict :=
  (batchChunks batchSize emails).foldl
    (fun results batch => results ++ batch.map (categorize_email llm)) []

theorem batchChunks_flatten (bs : ℕ) (hbs : bs ≠ 0) :
    ∀ (n : ℕ) (l : List α), l.length ≤ n →
    (batchChunks bs l).flatten = l := by
  intro n
  induction n with
  | zero =>
      intro l hl
      have hnil : l = [] := by
        cases l with
        | nil => rfl
        | cons a as => simp at hl
      subst hnil
      rw [batchChunks]
      simp [hbs]
  | succ n ih =>
      intro l hl
      rw [batchChunks]
      by_cases he : l.isEmpty
      · have hnil : l = [] := by simpa [List.isEmpty_iff] using he
        simp [hbs, he, hnil]
      · have hrec := ih (l.drop bs) (by
          simp only [List.length_drop]; omega)
        rw [if_neg hbs, if_neg he, List.flatten_cons, hrec,
          List.take_append_drop]

theorem foldl_append_map (f : Dict → Dict) (chunks : List (List Dict)) :
    ∀ acc : List Dict,
    chunks.foldl (fun results batch => results ++ batch.map f) acc
      = acc ++ chunks.flatten.map f := by
  induction chunks with
  | nil => intro acc; simp
  | cons c rest ih =>
      intro acc
      simp only [List.foldl_cons, List.flatten_cons, List.map_append, ih,
        List.append_assoc]

theorem get_map_of_eq (l : List α) (l2 : List β) (f : β → α)
    (hmap : l = l2.map f) (i : ℕ) (hi : i < l2.length)
    (hi2 : i < l.length) : l.get ⟨i, hi2⟩ = f (l2.get ⟨i, hi⟩) := by
  subst hmap
  simp

/-- `batch_categorize` is elementwise `categorize_email` in input order
(for any positive batch size). -/
theorem batch_categorize_eq_map (llm : Dict → Except String String)
    (bs : ℕ) (hbs : bs ≠ 0) (emails : List Dict) :
    batch_categorize llm bs emails = emails.map (categorize_email llm) := by
  unfold batch_categorize
  rw [foldl_append_map,
    batchChunks_flatten bs hbs emails.length emails le_rfl]
  simp

theorem dlookup_map_overwrite_ne (k v k' : String) (h : k' ≠ k) (d : Dict) :
    dlookup k' (d.map (fun kv => if kv.1 = k then (k, v) else kv))
      = dlookup k' d := by
  induction d with
  | nil => rfl
  | cons kv rest ih =>
      rw [List.map_cons]
      by_cases hkk : kv.1 = k
      · rw [if_pos hkk, dlookup_cons, dlookup_cons, if_neg (Ne.symm h),
          if_neg (by rw [hkk]; exact Ne.symm h)]
        exact ih
      · rw [if_neg hkk, dlookup_cons, dlookup_cons]
        by_cases hf : kv.1 = k'
        · rw [if_pos hf, if_pos hf]
        · rw [if_neg hf, if_neg hf]
          exact ih

theorem dictInsert_dlookup_ne (d : Dict) (k v k' : String) (h : k' ≠ k) :
    dlookup k' (dictInsert d k v) = dlookup k' d := by
  unfold dictInsert
  cases hd : dlookup k d with
  | some w =>
      simp only [hd, Option.isSome_some, if_true]
      exact dlookup_map_overwrite_ne k v k' h d
  | none =>
      simp only [hd, Option.isSome_none, Bool.false_eq_true, if_false]
      rw [dlookup_append]
      cases hd' : dlookup k' d with
      | some w => simp
      | none => simp [dlookup, Ne.symm h]

theorem categoryFromLines_mem (lines : List String) :
    categoryFromLines lines = "spam" ∨ categoryFromLines lines = "keep" ∨
      categoryFromLines lines = "unsure" := by
  induction lines with
  | nil => right; right; rfl
  | cons line rest ih =>
      rw [categoryFromLines]
      by_cases h1 : strStarts (pyStrip line) "CATEGORY:"
      · rw [if_pos h1]
        by_cases h2 : containsStr (pyStrip (afterFirst line ":")) "SPAM"
        · rw [if_pos h2]; left; rfl
        · rw [if_neg h2]
          by_cases h3 : containsStr (pyStrip (afterFirst line ":")) "KEEP"
          · rw [if_pos h3]; right; left; rfl
          · rw [if_neg h3]
            by_cases h4 :
                containsStr (pyStrip (afterFirst line ":")) "UNSURE"
            · rw [if_pos h4]; right; right; rfl
            · rw [if_neg h4]; right; right; rfl
      · rw [if_neg h1]; exact ih

theorem parse_response_category_mem (resp : String) :
    (parse_response resp).1 = "spam" ∨ (parse_response resp).1 = "keep" ∨
      (parse_response resp).1 = "unsure" := by
  unfold parse_response
  by_cases h : containsStr (pyUpper (pyStrip resp)) "CATEGORY:"
  · simpa [h] using
      categoryFromLines_mem (pySplitOn (pyUpper (pyStrip resp)) "\n")
  · simp [h]

theorem parse_response_reasoning_ne (resp : String) :
    (parse_response resp).2 ≠ "" := by
  unfold parse_response
  by_cases h : rawReasoning (pyUpper (pyStrip resp)) = ""
  · simp [h]
  · simp [h]

/-- The category field written by `categorize_email`: parsed from the
response on success, "unsure" on a raised LLM call. -/
theorem categorize_email_category_eq (llm : Dict → Except String String)
    (e : Dict) :
    dlookup "category" (categorize_email llm e) =
      some (match llm e with
            | .ok t => (parse_response t).1
            | .error _ => "unsure") := by
  unfold categorize_email
  cases hl : llm e with
  | ok t =>
      rw [dictInsert_dlookup_ne _ _ _ _ (by decide)]
      exact dictInsert_dlookup_self _ _ _
  | error msg =>
      rw [dictInsert_dlookup_ne _ _ _ _ (by decide)]
      exact dictInsert_dlookup_self _ _ _

theorem categorize_email_keys (llm : Dict → Except String String)
    (e : Dict) (k : String) (h : (dlookup k e).isSome) :
    (dlookup k (categorize_email llm e)).isSome := by
  unfold categorize_email
  cases llm e with
  | ok t =>
      exact dictInsert_dlookup_isSome _ _ _ _
        (dictInsert_dlookup_isSome _ _ _ _ h)
  | error msg =>
      exact dictInsert_dlookup_isSome _ _ _ _
        (dictInsert_dlookup_isSome _ _ _ _ h)

/-! ### C6: defensive parsing degrades to "unsure" -/

/-- C6: any response text lacking a CATEGORY: token (after the parser's own
strip-and-uppercase normalization) parses to category "unsure" with a
non-empty synthetic reasoning; and `categorize_email` never surfaces an
exception - for every email and every LLM outcome it returns a verdict
whose category is one of spam/keep/unsure, with a raising LLM call caught
and degraded to "unsure". -/
theorem spamDetector_unsure_default (resp : String)
    (llm : Dict → Except String String) (e : Dict)
    (hno : containsStr (pyUpper (pyStrip resp)) "CATEGORY:" = false) :
    (parse_response resp).1 = "unsure" ∧
    (parse_response resp).2 ≠ "" ∧
    (dlookup "category" (categorize_email llm e) = some "spam" ∨
     dlookup "category" (categorize_email llm e) = some "keep" ∨
     dlookup "category" (categorize_email llm e) = some "unsure") ∧
    (∀ msg, llm e = .error msg →
      dlookup "category" (categorize_email llm e) = some "unsure") := by
  refine ⟨?_, parse_response_reasoning_ne resp, ?_, ?_⟩
  · unfold parse_response
    simp [hno]
  · rw [categorize_email_category_eq]
    cases hl : llm e with
    | ok t =>
        simpa using parse_response_category_mem t
    | error msg => simp
  · intro msg hl
    rw [categorize_email_category_eq, hl]

/-- C6 witness: a token-free response and a raising LLM call at concrete
inputs. -/
theorem spamDetector_unsure_default_witness :
    containsStr (pyUpper (pyStrip "hello world, no token here"))
      "CATEGORY:" = false ∧
    (parse_response "hello world, no token here").1 = "unsure" ∧
    dlookup "category"
      (categorize_email (fun _ => .error "boom") [("id", "1")])
      = some "unsure" := by
  have h := spamDetector_unsure_default "hello world, no token here"
    (fun _ => .error "boom") [("id", "1")] (by decide)
  exact ⟨by decide, h.1, h.2.2.2 "boom" rfl⟩

/-! ### C10: batch categorization shape -/

/-- C10: `batch_categorize` returns exactly one verdict per input email, in
input order (the i-th result is `categorize_email` of the i-th input); each
verdict retains every key of its input email and carries a category that is
one of spam/keep/unsure. (Positive batch size; `range(0, n, 0)` raises in
Python.) -/
theorem batchCategorize_shape (llm : Dict → Except String String)
    (bs : ℕ) (emails : List Dict) (hbs : bs ≠ 0) :
    (batch_categorize llm bs emails).length = emails.length ∧
    ∀ i (hi : i < emails.length)
      (hi2 : i < (batch_categorize llm bs emails).length),
      (batch_categorize llm bs emails).get ⟨i, hi2⟩
        = categorize_email llm (emails.get ⟨i, hi⟩) ∧
      (∀ k, (dlookup k (emails.get ⟨i, hi⟩)).isSome →
        (dlookup k ((batch_categorize llm bs emails).get ⟨i, hi2⟩)).isSome) ∧
      (dlookup "category"
          ((batch_categorize llm bs emails).get ⟨i, hi2⟩) = some "spam" ∨
       dlookup "category"
          ((batch_categorize llm bs emails).get ⟨i, hi2⟩) = some "keep" ∨
       dlookup "category"
          ((batch_categorize llm bs emails).get ⟨i, hi2⟩) = some "unsure") := by
  have hmap := batch_categorize_eq_map llm bs hbs emails
  constructor
  · rw [hmap, List.length_map]
  · intro i hi hi2
    have hget : (batch_categorize llm bs emails).get ⟨i, hi2⟩
        = categorize_email llm (emails.get ⟨i, hi⟩) :=
      get_map_of_eq _ _ _ hmap i hi hi2
    refine ⟨hget, ?_, ?_⟩
    · intro k hk
      rw [hget]
      exact categorize_email_keys llm _ k hk
    · rw [hget, categorize_email_category_eq]
      cases hl : llm (emails.get ⟨i, hi⟩) with
      | ok t => simpa using parse_response_category_mem t
      | error msg => simp

/-- C10 witness: a singleton batch at a concrete well-formed response. -/
theorem batchCategorize_shape_witness :
    (10 : ℕ) ≠ 0 ∧ (0 : ℕ) < 1 ∧
    (batch_categorize (fun _ => .ok "CATEGORY: SPAM\nREASONING: ads") 10
      [[("id", "1"), ("from", "x@y.z")]]).length = 1 := by
  have h := batchCategorize_shape
    (fun _ => .ok "CATEGORY: SPAM\nREASONING: ads") 10
    [[("id", "1"), ("from", "x@y.z")]] (by decide)
  exact ⟨by decide, by decide, by simpa using h.1⟩

/-! ## IMAP bulk operations (src/server/assistant_functions.py)

`bulk_delete_emails` and `categorize_emails` run against a selected IMAP
mailbox. The mailbox is a folder map; every protocol call the code issues
is recorded in an ordered trace, and the calls that mutate mailbox state
(`store +FLAGS`, `expunge`, `copy`, folder `create`) are distinguished.
`FETCH (RFC822)` implicitly marks a message seen server-side; the model
applies that effect so the dry-run theorem claims only what survives it
(message count and folder set). -/

/-- One message of the modelled IMAP mailbox. `ageDays` is the age of its
date header relative to now, used for the `BEFORE` search criterion. -/
structure ImapMsg where
  uid : ℕ
  ageDays : ℕ
  sender : String
  subject : String
  seen : Bool
  deriving Repr, DecidableEq

/-- Mailbox state: folder name to messages in mailbox order. -/
structure Mailbox where
  folders : List (String × List ImapMsg)
  deriving Repr, DecidableEq

/-- Protocol calls issued to the IMAP session, in order. -/
inductive ImapOp where
  | select (folder : String)
  | search
  | fetch (uid : ℕ)
  | storeDeleted (uid : ℕ)
  | expunge
  | copy (uid : ℕ) (folder : String)
  | create (folder : String)
  | logout
  deriving Repr, DecidableEq

/-- The mutating protocol calls: flag stores, expunge, copy, create. -/
def ImapOp.isMutating : ImapOp → Bool
  | .storeDeleted _ => true
  | .expunge => true
  | .copy _ _ => true
  | .create _ => true
  | _ => false

/-- The `criteria` dict of `bulk_delete_emails`. -/
structure DeleteCriteria where
  olderThanDays : Option ℕ
  folder : Option String
  fromContains : Option String
  subjectContains : Option String

/-- The IMAP search query built from the criteria: `BEFORE cutoff` (date
strictly older than `older_than_days`), `FROM "..."` and `SUBJECT "..."`
substring matches; no criteria means `ALL`. -/
def matchesCriteria (c : DeleteCriteria) (m : ImapMsg) : Bool :=
  (match c.olderThanDays with
   | some d => decide (d < m.ageDays)
   | none => true) &&
  (match c.fromContains with
   | some s => containsStr m.sender s
   | none => true) &&
  (match c.subjectContains with
   | some s => containsStr m.subject s
   | none => true)

/-- Shape of the dict returned by `bulk_delete_emails`. -/
structure BulkDeleteResult where
  message : String
  wouldDelete : Option ℕ := none
  deletedCount : Option ℕ := none
  error : Option String := none
  deriving Repr, DecidableEq

/-- Server-side effect of `FETCH (RFC822)` on the INBOX: fetched messages
are marked seen. -/
def markFetched (box : Mailbox) (uids : List ℕ) : Mailbox :=
  { folders := box.folders.map (fun fm =>
      if fm.1 = "INBOX" then
        (fm.1, fm.2.map (fun m =>
          if uids.contains m.uid then { m with seen := true } else m))
      else fm) }

/-- `bulk_delete_emails`: select the criteria folder (INBOX default),
search, and either report the match count (dry run: logout immediately,
nothing flagged) or flag each matching uid `\Deleted` in batches of 100
with one expunge per batch. A missing folder makes the search raise, which
the function catches into an error dict. -/
def bulk_delete_emails (box : Mailbox) (c : DeleteCriteria)
    (dryRun : Bool) : BulkDeleteResult × Mailbox × List ImapOp :=
  let folder := c.folder.getD "INBOX"
  match dlookup folder box.folders with
  | none =>
      ({ message := "", error := some ("select failed: " ++ folder) },
        box, [.select folder])
  | some msgs =>
      let uids := (msgs.filter (matchesCriteria c)).map ImapMsg.uid
      if dryRun then
        ({ message := "Dry run - no emails deleted",
           wouldDelete := some uids.length }, box,
         [.select folder, .search, .logout])
      else
        ({ message := "Deleted " ++ toString uids.length ++ " emails",
           deletedCount := some uids.length },
         { folders := box.folders.map (fun fm =>
             if fm.1 = folder then
               (fm.1, fm.2.filter (fun m => !matchesCriteria c m))
             else fm) },
         [ImapOp.select folder, ImapOp.search] ++
           ((batchChunks 100 uids).map
             (fun b => b.map ImapOp.storeDeleted ++ [ImapOp.expunge])).flatten
           ++ [ImapOp.logout])

/-- The incremental `categorization_results` tally. -/
def tallyCounts (cats : List String) : List (String × ℕ) :=
  cats.foldl (fun acc cat =>
    match dlookup cat acc with
    | some n => acc.map (fun kv => if kv.1 = cat then (cat, n + 1) else kv)
    | none => acc ++ [(cat, 1)]) []

/-- Shape of the dict returned by `categorize_emails`. -/
structure CategorizeResult where
  message : String
  totalProcessed : ℕ := 0
  counts : List (String × ℕ) := []
  error : Option String := none
  deriving Repr, DecidableEq

/-- Append a message to a folder, creating the folder when missing (the
`M.create` + `M.copy` pair of the non-dry-run branch). -/
def addToFolder (b : Mailbox) (name : String) (m : ImapMsg) : Mailbox :=
  match dlookup name b.folders with
  | some _ =>
      { folders := b.folders.map (fun fm =>
          if fm.1 = name then (fm.1, fm.2 ++ [m]) else fm) }
  | none => { folders := b.folders ++ [(name, [m])] }

/-- `categorize_emails`: select INBOX, search ALL, take the last
`max_messages` uids (all of them when `max_messages` is 0, as in Python
`uids[-0:]`), fetch and classify each; with `dry_run` only the per-category
counts are returned; otherwise each message is copied to its category
folder (created on demand), flagged deleted, and one final expunge commits
the batch. -/
def categorize_emails (classify : ImapMsg → String) (box : Mailbox)
    (maxMessages : ℕ) (dryRun : Bool) :
    CategorizeResult × Mailbox × List ImapOp :=
  match dlookup "INBOX" box.folders with
  | none =>
      ({ message := "", error := some "select failed: INBOX" }, box,
        [.select "INBOX"])
  | some msgs =>
      let chosen := pyTakeLast maxMessages msgs
      let counts := tallyCounts (chosen.map classify)
      let seenBox := markFetched box (chosen.map ImapMsg.uid)
      if dryRun then
        ({ message := "Dry run - no emails moved",
           totalProcessed := chosen.length, counts := counts },
         seenBox,
         [ImapOp.select "INBOX", ImapOp.search] ++
           chosen.map (fun m => ImapOp.fetch m.uid) ++ [ImapOp.logout])
      else
        let afterCopy :=
          chosen.foldl (fun b m => addToFolder b (classify m) m) seenBox
        ({ message := "Categorization complete",
           totalProcessed := chosen.length, counts := counts },
         { folders := afterCopy.folders.map (fun fm =>
             if fm.1 = "INBOX" then
               (fm.1, fm.2.filter
                 (fun m => !(chosen.map ImapMsg.uid).contains m.uid))
             else fm) },
         [ImapOp.select "INBOX", ImapOp.search] ++
           (chosen.map (fun m =>
             [ImapOp.fetch m.uid, ImapOp.create (classify m),
              ImapOp.copy m.uid (classify m),
              ImapOp.storeDeleted m.uid])).flatten
           ++ [ImapOp.expunge, ImapOp.logout])

/-! ### C2: dry run issues no mutating call and preserves the mailbox -/

theorem dlookup_map_keyPreserving {β : Type} (F : String × β → String × β)
    (hF : ∀ kv, (F kv).1 = kv.1) (f : String) :
    ∀ l : List (String × β),
    dlookup f (l.map F) = (dlookup f l).map (fun v => (F (f, v)).2) := by
  intro l
  induction l with
  | nil => rfl
  | cons kv rest ih =>
      obtain ⟨a, b⟩ := kv
      rw [List.map_cons, dlookup_cons, dlookup_cons]
      by_cases h : a = f
      · subst h
        rw [if_pos (hF (a, b)), if_pos rfl]
        rfl
      · rw [if_neg (by rw [hF (a, b)]; exact h), if_neg h, ih]

theorem map_fst_keyPreserving {β : Type} (F : String × β → String × β)
    (hF : ∀ kv, (F kv).1 = kv.1) (l : List (String × β)) :
    (l.map F).map Prod.fst = l.map Prod.fst := by
  induction l with
  | nil => rfl
  | cons kv rest ih => simp [hF, ih]

theorem markFetched_fst (box : Mailbox) (uids : List ℕ) :
    (markFetched box uids).folders.map Prod.fst
      = box.folders.map Prod.fst := by
  unfold markFetched
  apply map_fst_keyPreserving
  intro kv
  by_cases h : kv.1 = "INBOX" <;> simp [h]

theorem markFetched_counts (box : Mailbox) (uids : List ℕ) (f : String) :
    (dlookup f (markFetched box uids).folders).map List.length
      = (dlookup f box.folders).map List.length := by
  unfold markFetched
  rw [dlookup_map_keyPreserving _
    (by intro kv; by_cases h : kv.1 = "INBOX" <;> simp [h]) f]
  cases dlookup f box.folders with
  | none => rfl
  | some msgs =>
      by_cases h : f = "INBOX" <;> simp [h]

/-- C2: with `dry_run = true`, `bulk_delete_emails` issues no mutating
protocol call (no store/+FLAGS, no expunge, no copy, no create), leaves the
mailbox state unchanged, and reports `would_delete` equal to the number of
messages matching the criteria in the selected folder; `categorize_emails`
with `dry_run = true` likewise issues no mutating call and preserves the
message count of every folder and the folder set (only fetch-side seen
flags can change). -/
theorem dryRun_zero_mutation (box : Mailbox) (c : DeleteCriteria)
    (classify : ImapMsg → String) (maxMessages : ℕ) :
    (bulk_delete_emails box c true).2.1 = box ∧
    ((bulk_delete_emails box c true).2.2).all
      (fun op => !op.isMutating) = true ∧
    (∀ msgs, dlookup (c.folder.getD "INBOX") box.folders = some msgs →
      (bulk_delete_emails box c true).1.wouldDelete
        = some ((msgs.filter (matchesCriteria c)).length)) ∧
    ((categorize_emails classify box maxMessages true).2.2).all
      (fun op => !op.isMutating) = true ∧
    ((categorize_emails classify box maxMessages true).2.1).folders.map
      Prod.fst = box.folders.map Prod.fst ∧
    (∀ f,
      (dlookup f ((categorize_emails classify box maxMessages
        true).2.1).folders).map List.length
      = (dlookup f box.folders).map List.length) := by
  constructor
  · cases hd : dlookup (c.folder.getD "INBOX") box.folders with
    | none => simp [bulk_delete_emails, hd]
    | some msgs => simp [bulk_delete_emails, hd]
  constructor
  · cases hd : dlookup (c.folder.getD "INBOX") box.folders with
    | none => simp [bulk_delete_emails, hd, ImapOp.isMutating]
    | some msgs => simp [bulk_delete_emails, hd, ImapOp.isMutating]
  constructor
  · intro msgs hmsgs
    simp [bulk_delete_emails, hmsgs, List.length_map]
  constructor
  · cases hd : dlookup "INBOX" box.folders with
    | none => simp [categorize_emails, hd, ImapOp.isMutating]
    | some msgs =>
        simp only [categorize_emails, hd, if_true, List.all_append,
          List.all_cons, List.all_nil, List.all_map, Bool.and_true,
          Bool.true_and]
        simp [ImapOp.isMutating]
  constructor
  · cases hd : dlookup "INBOX" box.folders with
    | none => simp [categorize_emails, hd]
    | some msgs =>
        simp only [categorize_emails, hd, if_true]
        exact markFetched_fst box _
  · intro f
    cases hd : dlookup "INBOX" box.folders with
    | none => simp [categorize_emails, hd]
    | some msgs =>
        simp only [categorize_emails, hd, if_true]
        exact markFetched_counts box _ f

/-- C2 witness: a concrete two-message INBOX where one message matches the
criteria; the dry run reports `would_delete = 1` and changes nothing. -/
theorem dryRun_zero_mutation_witness :
    dlookup "INBOX"
      (Mailbox.mk [("INBOX",
        [⟨1, 400, "promo@shop.com", "big sale", false⟩,
         ⟨2, 10, "boss@work.com", "report", false⟩])]).folders
      = some [⟨1, 400, "promo@shop.com", "big sale", false⟩,
              ⟨2, 10, "boss@work.com", "report", false⟩] ∧
    (bulk_delete_emails
      (Mailbox.mk [("INBOX",
        [⟨1, 400, "promo@shop.com", "big sale", false⟩,
         ⟨2, 10, "boss@work.com", "report", false⟩])])
      ⟨some 365, none, none, none⟩ true).1.wouldDelete = some 1 := by
  have h := dryRun_zero_mutation
    (Mailbox.mk [("INBOX",
      [⟨1, 400, "promo@shop.com", "big sale", false⟩,
       ⟨2, 10, "boss@work.com", "report", false⟩])])
    ⟨some 365, none, none, none⟩ (fun _ => "Personal") 10
  refine ⟨rfl, ?_⟩
  rw [h.2.2.1 _ rfl]
  rfl

/-! ## GmailConnector.connect (src/server/connectors/gmail_connector.py)

The vault contents and the transport are the environment of one
`connect()` call; the trace counts the token-endpoint refresh calls and the
profile requests it makes. -/

/-- Tokens returned by `OAuth2Handler.refresh_access_token`. -/
structure RefreshTokens where
  accessToken : String
  refreshToken : String
  expiresIn : ℕ
  deriving Repr, DecidableEq

/-- Environment of one `connect()` call. `storedExpired` is what
`vault.is_token_expired` reports from the STORED expiry metadata
(fail-closed on missing/unparseable expiry); `profileFor tok` is the
outcome of `GET /users/me/profile` with bearer `tok` (`none` = non-200 or
exception, both swallowed by `_get_profile`); `refreshOutcome` is the token
endpoint's answer. -/
structure GmailEnv where
  metadata : Option AccountMeta
  accessToken : Option String
  refreshTokenStored : Option String
  clientId : Option String
  clientSecret : Option String
  storedExpired : Bool
  refreshOutcome : Option RefreshTokens
  profileFor : String → Option String

/-- Observable transport activity of one `connect()` call. -/
structure ConnectTrace where
  refreshCalls : ℕ
  profileCalls : ℕ
  deriving Repr, DecidableEq

/-- `GmailConnector._refresh_token`: requires a stored refresh token and
client credentials, then posts to the token endpoint once; returns
(success, fresh access token, endpoint calls made). All errors are caught
and reported as failure. -/
def refresh_token (env : GmailEnv) : Bool × Option String × ℕ :=
  match env.refreshTokenStored with
  | none => (false, none, 0)
  | some _ =>
      match env.clientId, env.clientSecret with
      | some _, some _ =>
          (match env.refreshOutcome with
           | some t => (true, some t.accessToken, 1)
           | none => (false, none, 1))
      | _, _ => (false, none, 0)

/-- The tail of `connect()` after the expiry check: read the access token
from the vault and make exactly one profile request to verify; a failed
request terminates the call with an error (no retry). -/
def gmail_connect_after (tok : Option String) (refreshCalls : ℕ)
    (env : GmailEnv) : (Bool × String) × ConnectTrace :=
  match tok with
  | none =>
      ((false, "No access token found - please authorize account"),
        ⟨refreshCalls, 0⟩)
  | some t =>
      match env.profileFor t with
      | some mail => ((true, "Connected as " ++ mail), ⟨refreshCalls, 1⟩)
      | none =>
          ((false, "Failed to verify Gmail connection"),
            ⟨refreshCalls, 1⟩)

/-- `GmailConnector.connect`: metadata and provider checks, a preemptive
refresh when the STORED expiry metadata says the token is expired (a failed
refresh is terminal), then one profile request. No API call is ever
retried. -/
def gmail_connect (env : GmailEnv) : (Bool × String) × ConnectTrace :=
  match env.metadata with
  | none => ((false, "Account not found"), ⟨0, 0⟩)
  | some meta =>
      if meta.provider ≠ "gmail" then
        ((false, "Account is not a Gmail account"), ⟨0, 0⟩)
      else if env.storedExpired then
        match refresh_token env with
        | (false, _, n) =>
            ((false, "Failed to refresh access token"), ⟨n, 0⟩)
        | (true, newTok, n) =>
            gmail_connect_after (newTok.or env.accessToken) n env
      else gmail_connect_after env.accessToken 0 env

/-! ### C4: no transparent refresh-and-retry on an expired-token failure -/

/-- Metadata of the C4 scenario account. -/
def c4Meta : AccountMeta :=
  { provider := "gmail", email := "u@gmail.com",
    credentialTypes := ["oauth_access_token", "oauth_refresh_token"] }

/-- C4 scenario: the stored expiry still claims the token is valid, but the
provider rejects it; a refresh would have produced a working token. -/
def c4Env : GmailEnv :=
  { metadata := some c4Meta,
    accessToken := some "expired-tok",
    refreshTokenStored := some "refresh-tok",
    clientId := some "cid", clientSecret := some "csec",
    storedExpired := false,
    refreshOutcome := some ⟨"fresh-tok", "refresh-tok", 3600⟩,
    profileFor := fun t =>
      if t = "fresh-tok" then some "u@gmail.com" else none }

/-- C4 counterexample: a connect() whose profile call fails because the
access token is expired at the provider (a refreshed token would succeed,
and a refresh was available) surfaces the error with ZERO refresh calls and
exactly one profile call - the connector never transparently refreshes and
retries a failed call; the only refresh is the preemptive one driven by
stored expiry metadata. -/
theorem gmailConnect_no_retry_counterexample :
    (gmail_connect c4Env).1.1 = false ∧
    c4Env.profileFor "fresh-tok" = some "u@gmail.com" ∧
    (refresh_token c4Env).1 = true ∧
    (gmail_connect c4Env).2.refreshCalls = 0 ∧
    (gmail_connect c4Env).2.profileCalls = 1 := by
  exact ⟨rfl, rfl, rfl, rfl, rfl⟩

theorem refresh_token_calls (env : GmailEnv) :
    (refresh_token env).2.2 ≤ 1 := by
  unfold refresh_token
  cases env.refreshTokenStored with
  | none => norm_num
  | some r =>
      cases env.clientId with
      | none => norm_num
      | some ci =>
          cases env.clientSecret with
          | none => norm_num
          | some cs => cases env.refreshOutcome <;> norm_num

theorem gmail_connect_after_trace (tok : Option String) (n : ℕ)
    (env : GmailEnv) :
    (gmail_connect_after tok n env).2.refreshCalls = n ∧
    (gmail_connect_after tok n env).2.profileCalls ≤ 1 := by
  cases tok with
  | none => simp [gmail_connect_after]
  | some t =>
      cases hp : env.profileFor t with
      | none => simp [gmail_connect_after, hp]
      | some mail => simp [gmail_connect_after, hp]

/-- C4 (amended): `connect()` performs at most one token refresh - exactly
the preemptive one taken when the stored expiry metadata reports expiry,
never when it does not - and issues at most one profile request per call; a
failed call is never retried. -/
theorem gmailConnect_refresh_amended (env : GmailEnv) :
    (gmail_connect env).2.refreshCalls ≤ 1 ∧
    (gmail_connect env).2.profileCalls ≤ 1 ∧
    (env.storedExpired = false →
      (gmail_connect env).2.refreshCalls = 0) := by
  cases hm : env.metadata with
  | none => simp [gmail_connect, hm]
  | some meta =>
      by_cases hp : meta.provider ≠ "gmail"
      · simp [gmail_connect, hm, hp]
      · by_cases he : env.storedExpired
        · rcases hr : refresh_token env with ⟨b, t, n⟩
          have hn : n ≤ 1 := by
            have := refresh_token_calls env
            rw [hr] at this
            exact this
          cases b with
          | false =>
              have hg : gmail_connect env =
                  ((false, "Failed to refresh access token"), ⟨n, 0⟩) := by
                simp [gmail_connect, hm, hp, he, hr]
              rw [hg]
              refine ⟨hn, by norm_num, ?_⟩
              intro hf
              rw [he] at hf
              simp at hf
          | true =>
              have ht := gmail_connect_after_trace (t.or env.accessToken)
                n env
              have hg : gmail_connect env
                  = gmail_connect_after (t.or env.accessToken) n env := by
                simp [gmail_connect, hm, hp, he, hr]
              rw [hg]
              refine ⟨by rw [ht.1]; exact hn, ht.2, ?_⟩
              intro hf
              rw [he] at hf
              simp at hf
        · have ht := gmail_connect_after_trace env.accessToken 0 env
          simp only [Bool.not_eq_true] at he
          have hg : gmail_connect env
              = gmail_connect_after env.accessToken 0 env := by
            simp [gmail_connect, hm, hp, he]
          rw [hg]
          exact ⟨by rw [ht.1]; norm_num, ht.2, fun _ => ht.1⟩

/-- C4 witness: the amended theorem at the concrete C4 environment. -/
theorem gmailConnect_refresh_amended_witness :
    c4Env.storedExpired = false ∧
    (gmail_connect c4Env).2.refreshCalls = 0 := by
  have h := gmailConnect_refresh_amended c4Env
  exact ⟨rfl, h.2.2 rfl⟩

/-! ## Folder/label creation (C5)

`GmailConnector._get_or_create_label` searches the label list with an EXACT
(case-sensitive) name comparison before creating;
`EmailManager.ensure_folders_exist` checks each category against a snapshot
of the existing IMAP folders with a case-insensitive substring test. -/

/-- One Gmail label as returned by the labels endpoint. -/
structure GmailLabel where
  name : String
  id : String
  deriving Repr, DecidableEq

/-- `GmailConnector._get_or_create_label`: when listing succeeds, return
the id of a label whose name matches EXACTLY (`label["name"] ==
label_name`); otherwise create one (`newId` is the id the service assigns
to the created label); `none` when creation fails too. -/
def get_or_create_label (listOk createOk : Bool)
    (labels : List GmailLabel) (labelName newId : String) :
    Option String × List GmailLabel :=
  match (if listOk then
    (labels.find? (fun l => l.name == labelName)).map GmailLabel.id
  else none) with
  | some lid => (some lid, labels)
  | none =>
      if createOk then (some newId, labels ++ [⟨labelName, newId⟩])
      else (none, labels)

/-- The 18 categories of `EMAIL_CATEGORIES`. -/
def EMAIL_CATEGORIES : List String :=
  ["Priority", "Personal", "Work", "School", "Private", "Finance",
   "Shopping", "Calendar & Events", "Social Media", "Newsletters",
   "Photos & Media", "Productivity", "Family", "Health & Medical",
   "Receipts & Confirmations", "Spam", "Archive", "Inbox"]

/-- The existence check of `ensure_folders_exist`: case-insensitive
SUBSTRING search against the folder-list snapshot
(`category.lower() in str(f).lower()`). -/
def folderExists (existing : List String) (category : String) : Bool :=
  existing.any (fun f => containsStr (pyLower f) (pyLower category))

/-- The folder-creating loop of `EmailManager.ensure_folders_exist`: every
category except Archive is created unless the snapshot of existing folders
matches it case-insensitively; returns (folders_created, resulting folder
list). The check always runs against the initial snapshot, as in the
code. -/
def ensure_folders_exist (existing : List String) :
    List String × List String :=
  let created := EMAIL_CATEGORIES.filter (fun c =>
    c != "Archive" && !folderExists existing c)
  (created, existing ++ created)

/-! ### C5: idempotence of folder/label creation -/

/-- C5 counterexample: the Gmail label search is case-SENSITIVE - with the
label "spam-review" already present, requesting "SPAM-REVIEW" creates a
second label, leaving two labels whose names differ only in case; so the
claim that the get-or-create step searches case-insensitively (and that
repeated ensure-folder runs can never yield two folders differing only in
case) is false on the Gmail path. -/
theorem labelCreate_case_counterexample :
    (get_or_create_label true true [⟨"spam-review", "L1"⟩]
      "SPAM-REVIEW" "L2").2
      = [⟨"spam-review", "L1"⟩, ⟨"SPAM-REVIEW", "L2"⟩] ∧
    ("spam-review" : String) ≠ "SPAM-REVIEW" ∧
    pyLower "spam-review" = pyLower "SPAM-REVIEW" := by
  exact ⟨rfl, by decide, rfl⟩

theorem listStarts_self (l : List Char) : listStarts l l = true := by
  induction l with
  | nil => rfl
  | cons c cs ih => simp [listStarts, ih]

theorem containsStr_self (s : String) : containsStr s s = true := by
  unfold containsStr
  cases hs : s.data with
  | nil => rfl
  | cons c cs => simp [listHasInfix, listStarts_self]

theorem folderExists_append (existing extra : List String) (c : String)
    (h : folderExists existing c = true) :
    folderExists (existing ++ extra) c = true := by
  unfold folderExists at h ⊢
  rw [List.any_append, h]
  rfl

theorem folderExists_of_mem (existing : List String) (c : String)
    (h : c ∈ existing) : folderExists existing c = true := by
  unfold folderExists
  exact List.any_eq_true.mpr ⟨c, h, containsStr_self _⟩

/-- C5 (amended): `_get_or_create_label` is idempotent for an EXACT name -
calling it twice in succession with the same name never creates a second
label, the second call reuses the result of the first; and a second run of
the IMAP `ensure_folders_exist` step creates no folder at all (its
case-insensitive check finds every category in the folder list the first
run left). Names that differ only in case, however, do produce distinct
Gmail labels (see the counterexample). -/
theorem folderCreate_idempotence_amended (labels : List GmailLabel)
    (name id1 id2 : String) (existing : List String) :
    (get_or_create_label true true
      (get_or_create_label true true labels name id1).2 name id2).2
      = (get_or_create_label true true labels name id1).2 ∧
    (ensure_folders_exist (ensure_folders_exist existing).2).1 = [] := by
  constructor
  · cases hf : labels.find? (fun l => l.name == name) with
    | some l =>
        simp [get_or_create_label, hf]
    | none =>
        have h1 : get_or_create_label true true labels name id1
            = (some id1, labels ++ [⟨name, id1⟩]) := by
          simp [get_or_create_label, hf]
        rw [h1]
        have h2 : (labels ++ [(⟨name, id1⟩ : GmailLabel)]).find?
            (fun l => l.name == name) = some ⟨name, id1⟩ := by
          rw [List.find?_append, hf]
          simp [List.find?]
        simp [get_or_create_label, h2]
  · show (EMAIL_CATEGORIES.filter (fun c =>
      c != "Archive" && !folderExists (ensure_folders_exist existing).2 c))
      = []
    apply List.filter_eq_nil_iff.mpr
    intro c hc
    by_cases ha : c = "Archive"
    · simp [ha]
    · have hex : folderExists (ensure_folders_exist existing).2 c
          = true := by
        show folderExists (existing ++ EMAIL_CATEGORIES.filter (fun c =>
          c != "Archive" && !folderExists existing c)) c = true
        by_cases hf : folderExists existing c
        · exact folderExists_append _ _ _ hf
        · apply folderExists_of_mem
          apply List.mem_append_right
          apply List.mem_filter.mpr
          refine ⟨hc, ?_⟩
          simp [ha, hf]
      simp [hex]

/-! ## OAuth2Handler.start_authorization_flow (C8)

The browser redirect lands on the local listener, which records a `code`
or `error` query parameter in the class-level callback state; the flow
polls that state every 0.5 seconds for up to 300 seconds - at most 600
polls - and `events tick` is the state visible at poll number `tick`.
`exchange` is the code-for-tokens exchange at the token endpoint (`none` =
network failure, logged and returned as failure). -/

/-- The callback state captured by the local HTTP listener. -/
inductive CallbackEvent where
  | code (c : String)
  | err (e : String)
  deriving Repr, DecidableEq

/-- Token set from a successful exchange. -/
structure OAuthTokens where
  accessToken : String
  refreshToken : String
  expiresIn : ℕ
  deriving Repr, DecidableEq

/-- The `(success, tokens, error)` result of the flow plus whether
`server.shutdown()` ran on the taken exit path. -/
structure FlowOutcome where
  success : Bool
  tokens : Option OAuthTokens
  error : Option String
  serverShutdown : Bool
  deriving Repr, DecidableEq

/-- The poll loop of `start_authorization_flow`: on a captured code, shut
down and exchange (exchange failure is an error result); on a captured
provider error, shut down and report it; when the fuel (the 300 s / 0.5 s
budget) runs out, shut down and report the timeout. -/
def pollLoop (events : ℕ → Option CallbackEvent)
    (exchange : String → Option OAuthTokens) :
    ℕ → ℕ → FlowOutcome
  | _, 0 =>
      { success := false, tokens := none,
        error := some "Authorization timeout - user did not complete flow",
        serverShutdown := true }
  | tick, fuel + 1 =>
      match events tick with
      | some (.code c) =>
          match exchange c with
          | some t =>
              { success := true, tokens := some t, error := none,
                serverShutdown := true }
          | none =>
              { success := false, tokens := none,
                error :=
                  some "Failed to exchange authorization code for tokens",
                serverShutdown := true }
      | some (.err e) =>
          { success := false, tokens := none,
            error := some ("Authorization error: " ++ e),
            serverShutdown := true }
      | none => pollLoop events exchange (tick + 1) fuel

/-- `OAuth2Handler.start_authorization_flow`: 600 polls of the callback
state (300 seconds at 0.5-second sleeps). -/
def start_authorization_flow (events : ℕ → Option CallbackEvent)
    (exchange : String → Option OAuthTokens) : FlowOutcome :=
  pollLoop events exchange 0 600

/-! ### C8: timeout result and listener shutdown on every exit -/

theorem pollLoop_shutdown (events : ℕ → Option CallbackEvent)
    (exchange : String → Option OAuthTokens) :
    ∀ fuel tick,
    (pollLoop events exchange tick fuel).serverShutdown = true := by
  intro fuel
  induction fuel with
  | zero => intro tick; rfl
  | succ n ih =>
      intro tick
      cases hev : events tick with
      | none =>
          rw [pollLoop, hev]
          exact ih (tick + 1)
      | some ev =>
          cases ev with
          | code c =>
              cases hx : exchange c with
              | some t => rw [pollLoop, hev]; simp [hx]
              | none => rw [pollLoop, hev]; simp [hx]
          | err e => rw [pollLoop, hev]

theorem pollLoop_timeout (events : ℕ → Option CallbackEvent)
    (exchange : String → Option OAuthTokens) :
    ∀ fuel tick, (∀ t, t < tick + fuel → events t = none) →
    pollLoop events exchange tick fuel =
      { success := false, tokens := none,
        error := some "Authorization timeout - user did not complete flow",
        serverShutdown := true } := by
  intro fuel
  induction fuel with
  | zero => intro tick h; rfl
  | succ n ih =>
      intro tick h
      rw [pollLoop, h tick (by omega)]
      exact ih (tick + 1) (fun t ht => h t (by omega))

/-- C8: the flow polls for at most the 300-second budget (600 polls at
0.5-second intervals); when no callback arrives within it, it returns
`(false, none, timeout-class message)`; and on EVERY exit path of the flow
- success, exchange failure, provider error, or timeout - the local
callback listener is shut down. -/
theorem oauthFlow_timeout_shutdown (events : ℕ → Option CallbackEvent)
    (exchange : String → Option OAuthTokens) :
    (start_authorization_flow events exchange).serverShutdown = true ∧
    ((∀ t, t < 600 → events t = none) →
      start_authorization_flow events exchange =
        { success := false, tokens := none,
          error :=
            some "Authorization timeout - user did not complete flow",
          serverShutdown := true }) := by
  constructor
  · exact pollLoop_shutdown events exchange 600 0
  · intro h
    exact pollLoop_timeout events exchange 600 0
      (fun t ht => h t (by omega))

/-- C8 witness: the theorem at the never-answering callback environment. -/
theorem oauthFlow_timeout_shutdown_witness :
    (∀ t, t < 600 → (fun _ => (none : Option CallbackEvent)) t = none) ∧
    (start_authorization_flow (fun _ => none) (fun _ => none)).success
      = false ∧
    ((start_authorization_flow (fun _ => none) (fun _ => none)).error
      = some "Authorization timeout - user did not complete flow") ∧
    (start_authorization_flow (fun _ => none)
      (fun _ => none)).serverShutdown = true := by
  have h := oauthFlow_timeout_shutdown
    (fun _ => (none : Option CallbackEvent))
    (fun _ => (none : Option OAuthTokens))
  have ht := h.2 (fun t _ => rfl)
  exact ⟨fun t _ => rfl, by rw [ht], by rw [ht], h.1⟩

end ExecAssist
